import Mathlib

/-!
# Verification of the RoboBuilding linear-regression / volatility-cluster core

Shallow embedding of `src/Stocks/R1_LinearRegression/indicators.py` over exact
rational arithmetic.  Floating-point `float64` values are modelled as `ℚ`; the
`NaN` sentinel used for "window not yet full" is modelled as `Option.none`;
a Python runtime exception (e.g. `AttributeError`) is modelled as an explicit
error value returned next to the post-state of the mutated object.

Definitions are translated from the source file; the names follow the Python
names wherever Lean allows.
-/

namespace RoboBuilding

/-- Kahan compensated summation, as written in
`compute_linear_regression_mad_numba` (indicators.py lines 45-59 and 75-86):
state `(s, c)` is the running sum and the compensation term; each element `x`
updates `y := x - c`, `t := s + y`, `c := (t - s) - y`, `s := t`. -/
def kahanFold : List ℚ → ℚ → ℚ → ℚ × ℚ
  | [], s, c => (s, c)
  | x :: rest, s, c =>
      let y := x - c
      let t := s + y
      kahanFold rest t ((t - s) - y)

/-- `sumx = period * (period - 1) / 2` (indicators.py line 38). -/
def lr_sumx (period : ℕ) : ℚ := (period : ℚ) * ((period : ℚ) - 1) / 2

/-- `sumx2 = (period - 1) * period * (2 * period - 1) / 6` (indicators.py line 39). -/
def lr_sumx2 (period : ℕ) : ℚ :=
  ((period : ℚ) - 1) * (period : ℚ) * (2 * (period : ℚ) - 1) / 6

/-- `sumy`: Kahan summation of `data_points[g]` for `g` in `range(period)`
(indicators.py lines 45-52). -/
def lr_sumy (data_points : List ℚ) (period : ℕ) : ℚ :=
  (kahanFold ((List.range period).map fun g => data_points.getD g 0) 0 0).1

/-- `sumxy`: Kahan summation of `data_points[g] * g` for `g` in `range(period)`
(indicators.py lines 54-59). -/
def lr_sumxy (data_points : List ℚ) (period : ℕ) : ℚ :=
  (kahanFold ((List.range period).map fun g => data_points.getD g 0 * (g : ℚ)) 0 0).1

/-- Denominator `c = sumx2 * period - sumx * sumx` (indicators.py line 62). -/
def lr_denominator (period : ℕ) : ℚ :=
  lr_sumx2 period * (period : ℚ) - lr_sumx period * lr_sumx period

/-- The degenerate-denominator guard `abs(c) < 1e-10` (indicators.py line 64). -/
def lr_guard_fires (period : ℕ) : Bool :=
  |lr_denominator period| < 1 / 10000000000

/-- Slope and intercept
`b = (sumxy * period - sumx * sumy) / c`, `a = (sumy - sumx * b) / period`
(indicators.py lines 68-69).  Returned as `(b, a)`. -/
def lr_fit (data_points : List ℚ) (period : ℕ) : ℚ × ℚ :=
  let b := (lr_sumxy data_points period * (period : ℚ) -
      lr_sumx period * lr_sumy data_points period) / lr_denominator period
  let a := (lr_sumy data_points period - lr_sumx period * b) / (period : ℚ)
  (b, a)

/-- MAD: Kahan summation of `abs(data_points[i] - (a + b * i))` over
`i` in `range(period)`, divided by `period` (indicators.py lines 72-88). -/
def lr_mad (data_points : List ℚ) (period : ℕ) : ℚ :=
  let b := (lr_fit data_points period).1
  let a := (lr_fit data_points period).2
  (kahanFold ((List.range period).map fun i =>
      |data_points.getD i 0 - (a + b * (i : ℚ))|) 0 0).1 / (period : ℚ)

/-- `compute_linear_regression_mad_numba(data_points, period)`
(indicators.py lines 16-93): returns `(current_regression, mad)`, where
`current_regression = a + b * (period - 1)`; if `|c| < 1e-10` it returns
`(0, 0)` instead. -/
def compute_linear_regression_mad (data_points : List ℚ) (period : ℕ) : ℚ × ℚ :=
  if lr_guard_fires period then (0, 0)
  else
    let b := (lr_fit data_points period).1
    let a := (lr_fit data_points period).2
    (a + b * ((period : ℚ) - 1), lr_mad data_points period)

/-- `compute_lr_channel_mad_numba(closes, period, up_deviation, down_deviation)`
(indicators.py lines 96-121): one `Option (regression, upperband, lowerband)`
triple per input index; indices `i < period - 1` hold the NaN sentinel
(`none`); index `i ≥ period - 1` applies the estimator to the window
`closes[i-period+1 : i+1]`. -/
def compute_lr_channel_mad (closes : List ℚ) (period : ℕ) (up_deviation down_deviation : ℚ) :
    List (Option (ℚ × ℚ × ℚ)) :=
  (List.range closes.length).map fun i =>
    if i + 1 < period then none
    else
      let w := (closes.take (i + 1)).drop (i + 1 - period)
      let r := compute_linear_regression_mad w period
      some (r.1, r.1 + r.2 * up_deviation, r.1 - r.2 * down_deviation)

/-- `LinearRegressionChannel_MAD.next` (indicators.py lines 168-185): given the
closes that have arrived so far (`history`, most recent last), take the last
`period` of them (`self.data.get(size=period)`); if fewer than `period` are
available, emit the NaN sentinel (`none`); otherwise run the estimator and emit
`(regression, regression + mad * up_deviation, regression - mad * down_deviation)`. -/
def lrc_next (history : List ℚ) (period : ℕ) (up_deviation down_deviation : ℚ) :
    Option (ℚ × ℚ × ℚ) :=
  let data_points := history.drop (history.length - period)
  if data_points.length < period then none
  else
    let r := compute_linear_regression_mad data_points period
    some (r.1, r.1 + r.2 * up_deviation, r.1 - r.2 * down_deviation)

/-- `LinearRegressionChannel_MAD.__init__` (indicators.py lines 136-148): the
parameters `(period, up_deviation, down_deviation)` are stored; the
constructor performs no validation (it only declares the minimum period), so
construction always succeeds. -/
def lrc_init (period : ℕ) (up_deviation down_deviation : ℚ) :
    Except String (ℕ × ℚ × ℚ) :=
  Except.ok (period, up_deviation, down_deviation)

/-- A backtrader data feed as the indicator code uses it: a `_name` and the
per-bar `high` / `low` series (oldest first).  `len(data)` is the bar count. -/
structure Feed where
  name : String
  highs : List ℚ
  lows : List ℚ
deriving DecidableEq

/-- `len(data)`: number of bars the feed has seen. -/
def Feed.len (d : Feed) : ℕ := d.highs.length

/-- `np.max` over a (nonempty) list; the empty case is guarded at call sites. -/
def listMax : List ℚ → ℚ
  | [] => 0
  | x :: xs => xs.foldl max x

/-- `np.min` over a (nonempty) list; the empty case is guarded at call sites. -/
def listMin : List ℚ → ℚ
  | [] => 0
  | x :: xs => xs.foldl min x

/-- `VolatilityCalculator.calculate` (indicators.py lines 206-240): if the feed
has no bars return `0`; otherwise take the last `min(period, len(data))`
highs and lows; if either window is empty return `0`; if the minimum low is
`0` return `0`; else return `(max - min) / (min / 100)`. -/
def volatility_calculate (data : Feed) (period : ℕ) : ℚ :=
  if data.len < 1 then 0
  else
    let actual_period := min period data.len
    let highs := data.highs.drop (data.highs.length - actual_period)
    let lows := data.lows.drop (data.lows.length - actual_period)
    if highs.length = 0 ∨ lows.length = 0 then 0
    else
      let max_price := listMax highs
      let min_price := listMin lows
      if min_price = 0 then 0
      else (max_price - min_price) / (min_price / 100)

/-- One element of `sources_with_volatility` (indicators.py lines 311-315):
the dict `{'data': data, 'volatility': volatility, 'name': data._name}`. -/
structure SourceVol where
  data : Feed
  volatility : ℚ
  name : String
deriving DecidableEq

/-- A Python runtime exception escaping a method. -/
inductive PyError where
  | attributeError
deriving DecidableEq

/-- The mutable state of a `VolatilityStageClusters` object
(indicators.py lines 255-267): the three name-keyed cluster dicts (modelled as
insertion-ordered association lists), the three `*_full` lists, `one_lot`,
the lookback `length` and the three percentages. -/
structure VolatilityStageClusters where
  cluster_one : List (String × SourceVol)
  cluster_two : List (String × SourceVol)
  cluster_three : List (String × SourceVol)
  cluster_one_full : List SourceVol
  cluster_two_full : List SourceVol
  cluster_three_full : List SourceVol
  one_lot : ℚ
  length : ℕ
  cluster_one_percent : ℚ
  cluster_two_percent : ℚ
  cluster_three_percent : ℚ
deriving DecidableEq

/-- `VolatilityStageClusters.__init__` (indicators.py lines 255-271): fields
are initialised, then the three percentages are validated; `ValueError` is
raised iff `abs(p1 + p2 + p3 - 100) > 0.01`.  No other argument is checked. -/
def VolatilityStageClusters.init (lookback : ℕ)
    (one_percent two_percent three_percent : ℚ) :
    Except String VolatilityStageClusters :=
  if |one_percent + two_percent + three_percent - 100| > 1 / 100 then
    Except.error "VolatilityStageClusters error. Percent is not 100."
  else
    Except.ok
      { cluster_one := [], cluster_two := [], cluster_three := []
        cluster_one_full := [], cluster_two_full := [], cluster_three_full := []
        one_lot := 0, length := lookback
        cluster_one_percent := one_percent
        cluster_two_percent := two_percent
        cluster_three_percent := three_percent }

/-- Python dict assignment `d[k] = v` on an insertion-ordered dict: overwrite
in place if the key exists, else append. -/
def dictInsert (d : List (String × SourceVol)) (k : String) (v : SourceVol) :
    List (String × SourceVol) :=
  if d.any fun p => p.1 == k then d.map fun p => if p.1 == k then (k, v) else p
  else d ++ [(k, v)]

/-- Python `k in d` on a dict. -/
def hasKey (d : List (String × SourceVol)) (k : String) : Bool :=
  d.any fun p => p.1 == k

/-- The eligible `sources_with_volatility` list (indicators.py lines 300-315):
feeds with `len(data) >= self.length`, each paired with its volatility and
name, in input order. -/
def eligibleSources (length : ℕ) (feeds : List Feed) : List SourceVol :=
  (feeds.filter fun d => decide (length ≤ d.len)).map fun d =>
    { data := d, volatility := volatility_calculate d length, name := d.name }

/-- One iteration of the assignment loop (indicators.py lines 332-342) for the
element of 0-based index `i`: `position = i + 1`; append to cluster one while
`position <= cluster_one_limit`, to cluster two while
`position <= cluster_two_limit`, else to cluster three. -/
def assignOne (s : VolatilityStageClusters) (limit1 limit2 : ℚ) (i : ℕ)
    (src : SourceVol) : VolatilityStageClusters :=
  let position : ℚ := ((i + 1 : ℕ) : ℚ)
  if position ≤ limit1 then
    { s with cluster_one_full := s.cluster_one_full ++ [src]
             cluster_one := dictInsert s.cluster_one src.name src }
  else if position ≤ limit2 then
    { s with cluster_two_full := s.cluster_two_full ++ [src]
             cluster_two := dictInsert s.cluster_two src.name src }
  else
    { s with cluster_three_full := s.cluster_three_full ++ [src]
             cluster_three := dictInsert s.cluster_three src.name src }

/-- The whole assignment loop, folded over the enumerated sorted list. -/
def assignAll (s : VolatilityStageClusters) (limit1 limit2 : ℚ) :
    List (ℕ × SourceVol) → VolatilityStageClusters
  | [] => s
  | (i, src) :: rest => assignAll (assignOne s limit1 limit2 i src) limit1 limit2 rest

/-- `VolatilityStageClusters._calculate_clusters` (indicators.py lines
294-342).  Empty feed list: return unchanged.  Exactly one eligible source:
the code executes `self.cluster_one.append(...)` on a dict, which raises
`AttributeError` (dicts have no `append`), leaving the state unchanged.  Two
or more: stable-sort ascending by volatility, set
`one_lot = total_count / 100`, `cluster_one_limit = p1 * one_lot`,
`cluster_two_limit = (p1 + p2) * one_lot`, then run the assignment loop. -/
def calculate_clusters (s : VolatilityStageClusters) (data_feeds : List Feed) :
    VolatilityStageClusters × Option PyError :=
  if data_feeds.isEmpty then (s, none)
  else
    let sources := eligibleSources s.length data_feeds
    if sources.length ≤ 1 then
      if sources.length = 1 then (s, some PyError.attributeError)
      else (s, none)
    else
      let sorted := List.mergeSort sources fun a b => decide (a.volatility ≤ b.volatility)
      let total_count := sorted.length
      let one_lot : ℚ := (total_count : ℚ) / 100
      let limit1 := s.cluster_one_percent * one_lot
      let limit2 := (s.cluster_one_percent + s.cluster_two_percent) * one_lot
      (assignAll { s with one_lot := one_lot } limit1 limit2 sorted.enum, none)

/-- `VolatilityStageClusters.calculate` (indicators.py lines 274-292): clear
all six cluster containers, then run `_calculate_clusters`. -/
def VolatilityStageClusters.calculate (s : VolatilityStageClusters)
    (data_feeds : List Feed) : VolatilityStageClusters × Option PyError :=
  calculate_clusters
    { s with cluster_one := [], cluster_two := [], cluster_three := []
             cluster_one_full := [], cluster_two_full := [], cluster_three_full := [] }
    data_feeds

/-- `VolatilityStageClusters.is_in_cluster` (indicators.py lines 344-361):
key-membership of `data._name` in the dict selected by `cluster_number`;
any number other than 1, 2, 3 returns `False`. -/
def is_in_cluster (s : VolatilityStageClusters) (data : Feed)
    (cluster_number : ℤ) : Bool :=
  if cluster_number = 1 then hasKey s.cluster_one data.name
  else if cluster_number = 2 then hasKey s.cluster_two data.name
  else if cluster_number = 3 then hasKey s.cluster_three data.name
  else false

/-- Specification-side (from the claim's words): the entries of an enumerated
sequence whose 1-based rank `r = index + 1` satisfies `r ≤ limit1`. -/
def rankedOne (limit1 : ℚ) (pairs : List (ℕ × SourceVol)) : List SourceVol :=
  (pairs.filter fun p => decide (((p.1 + 1 : ℕ) : ℚ) ≤ limit1)).map Prod.snd

/-- Specification-side: entries whose 1-based rank satisfies
`limit1 < r ≤ limit2`. -/
def rankedTwo (limit1 limit2 : ℚ) (pairs : List (ℕ × SourceVol)) : List SourceVol :=
  (pairs.filter fun p => decide (limit1 < ((p.1 + 1 : ℕ) : ℚ)
      ∧ ((p.1 + 1 : ℕ) : ℚ) ≤ limit2)).map Prod.snd

/-- Specification-side: entries whose 1-based rank satisfies neither
`r ≤ limit1` nor `r ≤ limit2` (the "otherwise" bucket). -/
def rankedThree (limit1 limit2 : ℚ) (pairs : List (ℕ × SourceVol)) : List SourceVol :=
  (pairs.filter fun p => decide (limit1 < ((p.1 + 1 : ℕ) : ℚ)
      ∧ limit2 < ((p.1 + 1 : ℕ) : ℚ))).map Prod.snd

/-- The spec's worked cluster example: ten feeds named `D1 .. D10`, each with
one bar of low `100` and high `100 + v`, so their volatilities are the
ascending values `1 .. 10`. -/
def exampleFeeds : List Feed :=
  [⟨"D1", [101], [100]⟩, ⟨"D2", [102], [100]⟩, ⟨"D3", [103], [100]⟩,
   ⟨"D4", [104], [100]⟩, ⟨"D5", [105], [100]⟩, ⟨"D6", [106], [100]⟩,
   ⟨"D7", [107], [100]⟩, ⟨"D8", [108], [100]⟩, ⟨"D9", [109], [100]⟩,
   ⟨"D10", [110], [100]⟩]

/-- A freshly constructed partitioner state with the default `33/33/34` split
and lookback `1`. -/
def exampleState : VolatilityStageClusters :=
  ⟨[], [], [], [], [], [], 0, 1, 33, 33, 34⟩

/-! ## Helper lemmas -/

/-- In exact arithmetic the Kahan compensation term is identically zero, so the
compensated fold computes the plain sum. -/
theorem kahanFold_eq_sum (xs : List ℚ) : ∀ s : ℚ, kahanFold xs s 0 = (s + xs.sum, 0) := by
  induction xs with
  | nil => intro s; simp [kahanFold]
  | cons x rest ih =>
      intro s
      have h1 : kahanFold (x :: rest) s 0 = kahanFold rest (s + x) 0 := by
        simp only [kahanFold]
        have e2 : (s + (x - 0) - s) - (x - 0) = 0 := by ring
        have e1 : s + (x - 0) = s + x := by ring
        rw [e2, e1]
      rw [h1, ih]
      simp [List.sum_cons]
      ring

/-- Element `i` of a table built by mapping over `List.range`. -/
theorem getD_map_range {α : Type} (f : ℕ → α) {n i : ℕ} (hi : i < n) (d : α) :
    ((List.range n).map f).getD i d = f i := by
  simp [List.getD_eq_getElem?_getD, List.getElem?_map, List.getElem?_range hi]

/-- The Kahan-computed `sumy` is the plain sum of the window. -/
theorem lr_sumy_eq (data : List ℚ) (N : ℕ) :
    lr_sumy data N = ((List.range N).map fun g => data.getD g 0).sum := by
  unfold lr_sumy
  rw [kahanFold_eq_sum]
  simp

/-- The Kahan-computed `sumxy` is the plain sum of `data[g] * g`. -/
theorem lr_sumxy_eq (data : List ℚ) (N : ℕ) :
    lr_sumxy data N = ((List.range N).map fun g => data.getD g 0 * (g : ℚ)).sum := by
  unfold lr_sumxy
  rw [kahanFold_eq_sum]
  simp

/-- Closed form of the denominator: `c = N² (N² - 1) / 12`. -/
theorem lr_denominator_eq (N : ℕ) :
    lr_denominator N = (N : ℚ) ^ 2 * ((N : ℚ) ^ 2 - 1) / 12 := by
  unfold lr_denominator lr_sumx lr_sumx2
  ring

/-- For `N ≥ 2` the denominator is at least `1`. -/
theorem one_le_lr_denominator {N : ℕ} (hN : 2 ≤ N) : 1 ≤ lr_denominator N := by
  rw [lr_denominator_eq]
  have h2 : (2 : ℚ) ≤ (N : ℚ) := by exact_mod_cast hN
  nlinarith [sq_nonneg ((N : ℚ) - 2), sq_nonneg (N : ℚ)]

/-- For `N ≥ 2` the degenerate guard `|c| < 1e-10` never fires. -/
theorem lr_guard_false {N : ℕ} (hN : 2 ≤ N) : lr_guard_fires N = false := by
  have h1 := one_le_lr_denominator hN
  unfold lr_guard_fires
  simp only [decide_eq_false_iff_not, not_lt]
  calc (1 : ℚ) / 10000000000 ≤ 1 := by norm_num
    _ ≤ lr_denominator N := h1
    _ ≤ |lr_denominator N| := le_abs_self _

/-- For `N ≥ 2` the estimator takes the main branch. -/
theorem compute_lr_main_branch (data : List ℚ) {N : ℕ} (hN : 2 ≤ N) :
    compute_linear_regression_mad data N
      = ((lr_fit data N).2 + (lr_fit data N).1 * ((N : ℚ) - 1), lr_mad data N) := by
  unfold compute_linear_regression_mad
  rw [lr_guard_false hN]
  simp

/-! ## Claims -/

/-- **C1.** For every close series, period `N ≥ 2` and index `i` into the
series, the `ChannelPoint` produced by the batch pass
(`compute_lr_channel_mad_numba`) at index `i` equals the `ChannelPoint`
produced by the incremental path (`LinearRegressionChannel_MAD.next`) after
processing the first `i + 1` closes, both running the same compensated
summation estimator over the window; indices with fewer than `N` samples give
the NaN sentinel (`none`) on both paths. -/
theorem batch_incremental_equiv (closes : List ℚ) (N : ℕ) (hN : 2 ≤ N)
    (up_deviation down_deviation : ℚ) (i : ℕ) (hi : i < closes.length) :
    (compute_lr_channel_mad closes N up_deviation down_deviation).getD i none
      = lrc_next (closes.take (i + 1)) N up_deviation down_deviation
    ∧ (i + 1 < N →
        (compute_lr_channel_mad closes N up_deviation down_deviation).getD i none = none) := by
  have hbatch : (compute_lr_channel_mad closes N up_deviation down_deviation).getD i none
      = if i + 1 < N then none
        else
          let w := (closes.take (i + 1)).drop (i + 1 - N)
          let r := compute_linear_regression_mad w N
          some (r.1, r.1 + r.2 * up_deviation, r.1 - r.2 * down_deviation) := by
    unfold compute_lr_channel_mad
    exact getD_map_range _ hi none
  have hlen : (closes.take (i + 1)).length = i + 1 := by
    rw [List.length_take]
    omega
  constructor
  · rw [hbatch]
    unfold lrc_next
    rw [hlen]
    by_cases h : i + 1 < N
    · have hd : ((closes.take (i + 1)).drop (i + 1 - N)).length < N := by
        rw [List.length_drop, hlen]
        omega
      simp only [if_pos h, if_pos hd]
    · have hd : ¬ ((closes.take (i + 1)).drop (i + 1 - N)).length < N := by
        rw [List.length_drop, hlen]
        omega
      simp only [if_neg h, if_neg hd]
  · intro h
    rw [hbatch, if_pos h]

/-- Witness for C1 at `closes = [1, 2, 4]`, `N = 2`, `i = 1`. -/
theorem batch_incremental_equiv_witness :
    2 ≤ 2 ∧ (1 : ℕ) < ([1, 2, 4] : List ℚ).length ∧
    ((compute_lr_channel_mad [1, 2, 4] 2 1 1).getD 1 none
        = lrc_next (([1, 2, 4] : List ℚ).take 2) 2 1 1
      ∧ (1 + 1 < 2 →
          (compute_lr_channel_mad [1, 2, 4] 2 1 1).getD 1 none = none)) :=
  ⟨by decide, by decide,
    batch_incremental_equiv [1, 2, 4] 2 (by decide) 1 1 1 (by decide)⟩

/-- **C5.** For every window of exactly `N ≥ 2` samples at positions
`0 .. N-1`, the estimator computes `sumx = N(N-1)/2` and
`sumx2 = (N-1)N(2N-1)/6` independently of the data, `sumy` and `sumxy` as the
(compensated, hence exact) sums of the window values and of `value * position`,
slope `b = (sumxy*N - sumx*sumy)/c` with `c = sumx2*N - sumx^2`, intercept
`a = (sumy - sumx*b)/N`, returns `a + b*(N-1)` as the current regression
value, and returns MAD equal to the mean over `i = 0..N-1` of
`|sample[i] - (a + b*i)|`. -/
theorem estimator_formulas (data : List ℚ) (N : ℕ) (hN : 2 ≤ N)
    (hlen : data.length = N) :
    ∃ sumx sumx2 sumy sumxy c b a : ℚ,
      sumx = (N : ℚ) * ((N : ℚ) - 1) / 2 ∧
      sumx2 = ((N : ℚ) - 1) * (N : ℚ) * (2 * (N : ℚ) - 1) / 6 ∧
      sumy = ((List.range N).map fun g => data.getD g 0).sum ∧
      sumxy = ((List.range N).map fun g => data.getD g 0 * (g : ℚ)).sum ∧
      c = sumx2 * (N : ℚ) - sumx ^ 2 ∧
      b = (sumxy * (N : ℚ) - sumx * sumy) / c ∧
      a = (sumy - sumx * b) / (N : ℚ) ∧
      compute_linear_regression_mad data N =
        (a + b * ((N : ℚ) - 1),
         (((List.range N).map fun i => |data.getD i 0 - (a + b * (i : ℚ))|).sum)
           / (N : ℚ)) := by
  refine ⟨lr_sumx N, lr_sumx2 N, lr_sumy data N, lr_sumxy data N,
      lr_denominator N, (lr_fit data N).1, (lr_fit data N).2,
      rfl, rfl, lr_sumy_eq data N, lr_sumxy_eq data N, ?_, ?_, ?_, ?_⟩
  · unfold lr_denominator
    ring
  · unfold lr_fit
    rfl
  · unfold lr_fit
    rfl
  · rw [compute_lr_main_branch data hN]
    unfold lr_mad
    simp [kahanFold_eq_sum]

/-- Witness for C5 at `data = [1, 2, 4]`, `N = 3`. -/
theorem estimator_formulas_witness :
    2 ≤ 3 ∧ ([1, 2, 4] : List ℚ).length = 3 ∧
    (∃ sumx sumx2 sumy sumxy c b a : ℚ,
      sumx = (3 : ℚ) * ((3 : ℚ) - 1) / 2 ∧
      sumx2 = ((3 : ℚ) - 1) * (3 : ℚ) * (2 * (3 : ℚ) - 1) / 6 ∧
      sumy = ((List.range 3).map fun g => ([1, 2, 4] : List ℚ).getD g 0).sum ∧
      sumxy = ((List.range 3).map fun g =>
        ([1, 2, 4] : List ℚ).getD g 0 * (g : ℚ)).sum ∧
      c = sumx2 * (3 : ℚ) - sumx ^ 2 ∧
      b = (sumxy * (3 : ℚ) - sumx * sumy) / c ∧
      a = (sumy - sumx * b) / (3 : ℚ) ∧
      compute_linear_regression_mad ([1, 2, 4] : List ℚ) 3 =
        (a + b * ((3 : ℚ) - 1),
         (((List.range 3).map fun i =>
            |([1, 2, 4] : List ℚ).getD i 0 - (a + b * (i : ℚ))|).sum)
           / (3 : ℚ))) :=
  ⟨by decide, by decide,
    estimator_formulas ([1, 2, 4] : List ℚ) 3 (by decide) (by decide)⟩

/-- **C9.** For every period `N ≥ 2`, the denominator `c = sumx2*N - sumx^2`
equals `N²(N²-1)/12`, which is at least `1` and hence greater than `1e-10`, so
the degenerate guard `|c| < 1e-10` never fires; the estimator takes the main
branch and returns a value computed from the fit for every input window (the
`(0, 0)` fallback is unreachable and there is no other exit). -/
theorem denominator_guard_unreachable (N : ℕ) (hN : 2 ≤ N) (data : List ℚ) :
    lr_denominator N = (N : ℚ) ^ 2 * ((N : ℚ) ^ 2 - 1) / 12
    ∧ 1 ≤ lr_denominator N
    ∧ lr_guard_fires N = false
    ∧ compute_linear_regression_mad data N
        = ((lr_fit data N).2 + (lr_fit data N).1 * ((N : ℚ) - 1), lr_mad data N) :=
  ⟨lr_denominator_eq N, one_le_lr_denominator hN, lr_guard_false hN,
    compute_lr_main_branch data hN⟩

/-- Witness for C9 at `N = 2`, `data = [5, 7]`. -/
theorem denominator_guard_unreachable_witness :
    2 ≤ 2 ∧
    (lr_denominator 2 = (2 : ℚ) ^ 2 * ((2 : ℚ) ^ 2 - 1) / 12
    ∧ 1 ≤ lr_denominator 2
    ∧ lr_guard_fires 2 = false
    ∧ compute_linear_regression_mad ([5, 7] : List ℚ) 2
        = ((lr_fit [5, 7] 2).2 + (lr_fit [5, 7] 2).1 * ((2 : ℚ) - 1),
           lr_mad [5, 7] 2)) :=
  ⟨by decide, denominator_guard_unreachable 2 (by decide) [5, 7]⟩

/-- Gauss sum over positions, in `ℚ`. -/
theorem sum_range_linear (m k : ℚ) (N : ℕ) :
    ((List.range N).map fun g : ℕ => m * (g : ℚ) + k).sum
      = m * ((N : ℚ) * ((N : ℚ) - 1) / 2) + k * (N : ℚ) := by
  induction N with
  | zero => simp
  | succ n ih =>
      rw [List.range_succ, List.map_append, List.sum_append, ih]
      push_cast
      simp
      ring

/-- Weighted sum `Σ (m·g + k)·g` over positions, in `ℚ`. -/
theorem sum_range_linear_xy (m k : ℚ) (N : ℕ) :
    ((List.range N).map fun g : ℕ => (m * (g : ℚ) + k) * (g : ℚ)).sum
      = m * (((N : ℚ) - 1) * (N : ℚ) * (2 * (N : ℚ) - 1) / 6)
        + k * ((N : ℚ) * ((N : ℚ) - 1) / 2) := by
  induction N with
  | zero => simp
  | succ n ih =>
      rw [List.range_succ, List.map_append, List.sum_append, ih]
      push_cast
      simp
      ring

/-- On the exactly linear series `y = m·x + k` the fitted slope and intercept
are `m` and `k`. -/
theorem lr_fit_linear (m k : ℚ) {N : ℕ} (hN : 2 ≤ N) :
    lr_fit ((List.range N).map fun j : ℕ => m * (j : ℚ) + k) N = (m, k) := by
  have hc : lr_denominator N ≠ 0 := by
    have h1 := one_le_lr_denominator hN
    intro h
    rw [h] at h1
    norm_num at h1
  have hnz : (N : ℚ) ≠ 0 := by
    have : (0 : ℚ) < (N : ℚ) := by exact_mod_cast Nat.lt_of_lt_of_le (by norm_num) hN
    linarith
  have hy : lr_sumy ((List.range N).map fun j : ℕ => m * (j : ℚ) + k) N
      = m * ((N : ℚ) * ((N : ℚ) - 1) / 2) + k * (N : ℚ) := by
    rw [lr_sumy_eq]
    rw [List.map_congr_left fun a ha =>
      getD_map_range (fun j : ℕ => m * (j : ℚ) + k) (List.mem_range.mp ha) 0]
    exact sum_range_linear m k N
  have hxy : lr_sumxy ((List.range N).map fun j : ℕ => m * (j : ℚ) + k) N
      = m * (((N : ℚ) - 1) * (N : ℚ) * (2 * (N : ℚ) - 1) / 6)
        + k * ((N : ℚ) * ((N : ℚ) - 1) / 2) := by
    rw [lr_sumxy_eq]
    rw [List.map_congr_left fun a ha => by
      rw [getD_map_range (fun j : ℕ => m * (j : ℚ) + k) (List.mem_range.mp ha) 0]]
    exact sum_range_linear_xy m k N
  have hb : (lr_fit ((List.range N).map fun j : ℕ => m * (j : ℚ) + k) N).1 = m := by
    show (lr_sumxy ((List.range N).map fun j : ℕ => m * (j : ℚ) + k) N * (N : ℚ)
        - lr_sumx N * lr_sumy ((List.range N).map fun j : ℕ => m * (j : ℚ) + k) N)
        / lr_denominator N = m
    rw [div_eq_iff hc, hy, hxy, lr_denominator_eq]
    unfold lr_sumx
    ring
  have ha : (lr_fit ((List.range N).map fun j : ℕ => m * (j : ℚ) + k) N).2 = k := by
    show (lr_sumy ((List.range N).map fun j : ℕ => m * (j : ℚ) + k) N
        - lr_sumx N * (lr_fit ((List.range N).map fun j : ℕ => m * (j : ℚ) + k) N).1)
        / (N : ℚ) = k
    rw [hb, hy, div_eq_iff hnz]
    unfold lr_sumx
    ring
  rw [Prod.ext_iff]
  exact ⟨hb, ha⟩

/-- On the exactly linear series the mean absolute deviation is `0`. -/
theorem lr_mad_linear (m k : ℚ) {N : ℕ} (hN : 2 ≤ N) :
    lr_mad ((List.range N).map fun j : ℕ => m * (j : ℚ) + k) N = 0 := by
  unfold lr_mad
  rw [lr_fit_linear m k hN]
  have hmap : ((List.range N).map fun i =>
      |((List.range N).map fun j : ℕ => m * (j : ℚ) + k).getD i 0
        - ((m, k).2 + (m, k).1 * (i : ℚ))|)
      = (List.range N).map fun _ => (0 : ℚ) := by
    refine List.map_congr_left fun a ha => ?_
    rw [getD_map_range (fun j : ℕ => m * (j : ℚ) + k) (List.mem_range.mp ha) 0]
    have : m * (a : ℚ) + k - ((m, k).2 + (m, k).1 * (a : ℚ)) = 0 := by ring
    rw [this, abs_zero]
  simp only [hmap]
  rw [kahanFold_eq_sum]
  simp

/-- **C8.** For every period `N ≥ 2` and every input window lying exactly on
the line `y = m·x + k` (including constant series, `m = 0`), the fitted line
is `(slope, intercept) = (m, k)`, the estimator returns regression value
`m·(N-1) + k` with MAD `0`, and consequently the emitted channel has upper and
lower bands equal to the regression line for any deviation multipliers. -/
theorem linear_input_exact (m k : ℚ) (N : ℕ) (hN : 2 ≤ N)
    (up_deviation down_deviation : ℚ) :
    lr_fit ((List.range N).map fun i : ℕ => m * (i : ℚ) + k) N = (m, k)
    ∧ compute_linear_regression_mad ((List.range N).map fun i : ℕ => m * (i : ℚ) + k) N
        = (m * ((N : ℚ) - 1) + k, 0)
    ∧ lrc_next ((List.range N).map fun i : ℕ => m * (i : ℚ) + k) N
          up_deviation down_deviation
        = some (m * ((N : ℚ) - 1) + k, m * ((N : ℚ) - 1) + k,
            m * ((N : ℚ) - 1) + k) := by
  have hfit := lr_fit_linear m k hN
  have hmad := lr_mad_linear m k hN
  have hcomp : compute_linear_regression_mad
      ((List.range N).map fun i : ℕ => m * (i : ℚ) + k) N
      = (m * ((N : ℚ) - 1) + k, 0) := by
    rw [compute_lr_main_branch _ hN, hfit, hmad]
    simp only [Prod.mk.injEq]
    exact ⟨by ring, trivial⟩
  refine ⟨hfit, hcomp, ?_⟩
  unfold lrc_next
  have hL : ((List.range N).map fun i : ℕ => m * (i : ℚ) + k).length = N := by
    simp
  rw [hL]
  simp only [Nat.sub_self, List.drop_zero, hL, lt_irrefl, if_false, hcomp]
  norm_num

/-- Witness for C8 at `m = 2`, `k = 1`, `N = 3`. -/
theorem linear_input_exact_witness :
    2 ≤ 3 ∧
    (lr_fit ((List.range 3).map fun i : ℕ => 2 * (i : ℚ) + 1) 3 = (2, 1)
    ∧ compute_linear_regression_mad
        ((List.range 3).map fun i : ℕ => 2 * (i : ℚ) + 1) 3
        = (2 * ((3 : ℚ) - 1) + 1, 0)
    ∧ lrc_next ((List.range 3).map fun i : ℕ => 2 * (i : ℚ) + 1) 3 5 7
        = some (2 * ((3 : ℚ) - 1) + 1, 2 * ((3 : ℚ) - 1) + 1,
            2 * ((3 : ℚ) - 1) + 1)) :=
  ⟨by decide, linear_input_exact 2 1 3 (by decide) 5 7⟩

/-- **C6.** For every feed and lookback, the volatility gauge returns
`(max(highs) - min(lows)) / (min(lows) / 100)` over the window of the last
`min(lookback, len)` bars when that window is nonempty and its minimum low is
nonzero, and returns `0` when there are no observations or the minimum low is
`0`. -/
theorem volatility_gauge_spec (data : Feed) (period : ℕ)
    (hlen : data.lows.length = data.highs.length) :
    volatility_calculate data period =
      if data.len = 0 ∨ min period data.len = 0
          ∨ listMin (data.lows.drop (data.lows.length - min period data.len)) = 0
      then 0
      else
        (listMax (data.highs.drop (data.highs.length - min period data.len))
            - listMin (data.lows.drop (data.lows.length - min period data.len)))
          / (listMin (data.lows.drop (data.lows.length - min period data.len)) / 100) := by
  by_cases h0 : data.len = 0
  · have h1 : data.len < 1 := by omega
    unfold volatility_calculate
    rw [if_pos h1, if_pos (Or.inl h0)]
  · have h1 : ¬ data.len < 1 := by omega
    have hhl : data.highs.length = data.len := rfl
    have hh : (data.highs.drop (data.highs.length - min period data.len)).length
        = min period data.len := by
      rw [List.length_drop, hhl]
      omega
    have hl : (data.lows.drop (data.lows.length - min period data.len)).length
        = min period data.len := by
      rw [List.length_drop, hlen, hhl]
      omega
    unfold volatility_calculate
    rw [if_neg h1]
    simp only [hh, hl]
    by_cases hA : min period data.len = 0
    · rw [if_pos (Or.inl hA), if_pos (Or.inr (Or.inl hA))]
    · rw [if_neg (by omega : ¬ (min period data.len = 0 ∨ min period data.len = 0))]
      by_cases hm : listMin (data.lows.drop (data.lows.length - min period data.len)) = 0
      · rw [if_pos hm, if_pos (Or.inr (Or.inr hm))]
      · rw [if_neg hm, if_neg (by tauto)]

/-- Witness for C6 at the spec's literal example:
`highs = [110, 120, 100]`, `lows = [90, 95, 80]`, `lookback = 3`, and the
resulting volatility is `(120 - 80) / (80 / 100) = 50`. -/
theorem volatility_gauge_spec_witness :
    (⟨"A", [110, 120, 100], [90, 95, 80]⟩ : Feed).lows.length
        = (⟨"A", [110, 120, 100], [90, 95, 80]⟩ : Feed).highs.length
    ∧ (volatility_calculate ⟨"A", [110, 120, 100], [90, 95, 80]⟩ 3 =
        if (⟨"A", [110, 120, 100], [90, 95, 80]⟩ : Feed).len = 0
            ∨ min 3 (⟨"A", [110, 120, 100], [90, 95, 80]⟩ : Feed).len = 0
            ∨ listMin (([90, 95, 80] : List ℚ).drop
                (([90, 95, 80] : List ℚ).length
                  - min 3 (⟨"A", [110, 120, 100], [90, 95, 80]⟩ : Feed).len)) = 0
        then 0
        else
          (listMax (([110, 120, 100] : List ℚ).drop
              (([110, 120, 100] : List ℚ).length
                - min 3 (⟨"A", [110, 120, 100], [90, 95, 80]⟩ : Feed).len))
              - listMin (([90, 95, 80] : List ℚ).drop
                (([90, 95, 80] : List ℚ).length
                  - min 3 (⟨"A", [110, 120, 100], [90, 95, 80]⟩ : Feed).len)))
            / (listMin (([90, 95, 80] : List ℚ).drop
                (([90, 95, 80] : List ℚ).length
                  - min 3 (⟨"A", [110, 120, 100], [90, 95, 80]⟩ : Feed).len)) / 100))
    ∧ volatility_calculate ⟨"A", [110, 120, 100], [90, 95, 80]⟩ 3 = 50 :=
  ⟨by decide, volatility_gauge_spec ⟨"A", [110, 120, 100], [90, 95, 80]⟩ 3 (by decide),
    by norm_num [volatility_calculate, Feed.len, listMax, listMin]⟩

/-- **C7, counterexample.** The claim says construction fails exactly when a
percentage is negative or the sum is off `100`, and that `period < 2`,
negative deviations, and `lookback < 1` are rejected.  In the code:
a negative percentage whose sum is still `100` is accepted
(`VolatilityStageClusters(100, -1, 50, 51)` raises nothing), `period = 1`
and negative deviations are accepted by `LinearRegressionChannel_MAD`, and
`lookback = 0` is accepted. -/
theorem config_validation_counterexample :
    (VolatilityStageClusters.init 100 (-1) 50 51).isOk = true
    ∧ (lrc_init 1 2 2).isOk = true
    ∧ (lrc_init 100 (-1) (-1)).isOk = true
    ∧ (VolatilityStageClusters.init 0 33 33 34).isOk = true := by
  refine ⟨?_, rfl, rfl, ?_⟩ <;>
    norm_num [VolatilityStageClusters.init, Except.isOk, Except.toBool]

/-- **C7, amended.** Construction of the cluster partitioner fails exactly
when `|p1 + p2 + p3 - 100| > 0.01`; individual percentage signs, the
regression period, the deviation multipliers, and the volatility lookback are
not validated at construction. -/
theorem config_validation_amended (lookback : ℕ) (p1 p2 p3 : ℚ)
    (period : ℕ) (up_deviation down_deviation : ℚ) :
    ((VolatilityStageClusters.init lookback p1 p2 p3).isOk = true
        ↔ |p1 + p2 + p3 - 100| ≤ 1 / 100)
    ∧ (lrc_init period up_deviation down_deviation).isOk = true := by
  constructor
  · unfold VolatilityStageClusters.init
    by_cases h : |p1 + p2 + p3 - 100| > 1 / 100
    · rw [if_pos h]
      simp only [Except.isOk, Except.toBool]
      constructor
      · intro hfalse
        exact absurd hfalse (by simp)
      · intro hle
        linarith
    · rw [if_neg h]
      simp only [Except.isOk, Except.toBool, true_iff]
      linarith [not_lt.mp h]
  · rfl

/-- **C10.** `is_in_cluster` is total (never raises) and returns `True`
exactly when the queried `cluster_number` is `1`, `2` or `3` and the feed's
name is a key of the corresponding cluster mapping; every other
`cluster_number` (e.g. `0`, `4`, `-7`) yields `False`. -/
theorem is_in_cluster_spec (s : VolatilityStageClusters) (data : Feed) (n : ℤ) :
    is_in_cluster s data n = true
      ↔ ((n = 1 ∧ data.name ∈ s.cluster_one.map Prod.fst)
        ∨ (n = 2 ∧ data.name ∈ s.cluster_two.map Prod.fst)
        ∨ (n = 3 ∧ data.name ∈ s.cluster_three.map Prod.fst)) := by
  unfold is_in_cluster hasKey
  by_cases h1 : n = 1
  · simp [h1, List.any_eq_true, List.mem_map, beq_iff_eq]
  · by_cases h2 : n = 2
    · simp [h1, h2, List.any_eq_true, List.mem_map, beq_iff_eq]
    · by_cases h3 : n = 3
      · simp [h1, h2, h3, List.any_eq_true, List.mem_map, beq_iff_eq]
      · simp [h1, h2, h3]

/-- **C2, evaluation at the failing input.** With exactly one eligible
instrument, `_calculate_clusters` executes `self.cluster_one.append(...)` on a
`dict`, which raises `AttributeError`; the instrument is never placed in
cluster one and `is_in_cluster(data, 1)` does not return `True`. -/
theorem single_instrument_attribute_error :
    (VolatilityStageClusters.calculate
        ⟨[], [], [], [], [], [], 0, 1, 33, 33, 34⟩ [⟨"X", [101], [100]⟩]).2
      = some PyError.attributeError
    ∧ is_in_cluster
        (VolatilityStageClusters.calculate
          ⟨[], [], [], [], [], [], 0, 1, 33, 33, 34⟩ [⟨"X", [101], [100]⟩]).1
        ⟨"X", [101], [100]⟩ 1 = false := by
  constructor
  · norm_num [VolatilityStageClusters.calculate, calculate_clusters,
      eligibleSources, Feed.len]
  · norm_num [VolatilityStageClusters.calculate, calculate_clusters,
      eligibleSources, Feed.len, is_in_cluster, hasKey]

/-- `_calculate_clusters` with no eligible source leaves its input state
unchanged and raises nothing. -/
theorem calculate_clusters_no_eligible (s : VolatilityStageClusters)
    (feeds : List Feed) (h : eligibleSources s.length feeds = []) :
    calculate_clusters s feeds = (s, none) := by
  unfold calculate_clusters
  by_cases hf : feeds.isEmpty
  · rw [if_pos hf]
  · rw [if_neg hf]
    simp [h]

/-- **C3, counterexample.** The claim says a recompute with zero eligible
instruments leaves the previous assignment unchanged.  In the code,
`calculate` clears all cluster containers before checking eligibility, so a
membership that held before the call (here: feed `"A"` in cluster one after a
two-feed recompute with a `50/25/25` split) no longer holds after calling
`calculate([])`, although that call raises nothing. -/
theorem stale_assignment_counterexample :
    is_in_cluster
        (VolatilityStageClusters.calculate
          ⟨[], [], [], [], [], [], 0, 1, 50, 25, 25⟩
          [⟨"A", [101], [100]⟩, ⟨"B", [110], [100]⟩]).1
        ⟨"A", [101], [100]⟩ 1 = true
    ∧ (VolatilityStageClusters.calculate
        (VolatilityStageClusters.calculate
          ⟨[], [], [], [], [], [], 0, 1, 50, 25, 25⟩
          [⟨"A", [101], [100]⟩, ⟨"B", [110], [100]⟩]).1 []).2 = none
    ∧ is_in_cluster
        (VolatilityStageClusters.calculate
          (VolatilityStageClusters.calculate
            ⟨[], [], [], [], [], [], 0, 1, 50, 25, 25⟩
            [⟨"A", [101], [100]⟩, ⟨"B", [110], [100]⟩]).1 []).1
        ⟨"A", [101], [100]⟩ 1 = false := by
  refine ⟨?_, ?_, ?_⟩ <;>
    norm_num [VolatilityStageClusters.calculate, calculate_clusters,
      eligibleSources, Feed.len, volatility_calculate, listMax, listMin,
      is_in_cluster, hasKey, List.mergeSort, List.enum, assignAll, assignOne,
      dictInsert]

/-- **C3, amended.** When `calculate` is invoked with zero eligible
instruments (empty feed list, or no feed with at least `lookback` bars), the
cluster assignment is cleared rather than preserved: the call raises nothing
and afterwards no cluster membership holds at all (in particular, memberships
that did not hold before still do not hold). -/
theorem zero_eligible_clears (s : VolatilityStageClusters) (feeds : List Feed)
    (h : eligibleSources s.length feeds = []) :
    (VolatilityStageClusters.calculate s feeds).2 = none
    ∧ ∀ (data : Feed) (n : ℤ),
        is_in_cluster (VolatilityStageClusters.calculate s feeds).1 data n = false := by
  have hcalc : VolatilityStageClusters.calculate s feeds
      = ({ s with cluster_one := [], cluster_two := [], cluster_three := []
                  cluster_one_full := [], cluster_two_full := []
                  cluster_three_full := [] }, none) := by
    unfold VolatilityStageClusters.calculate
    exact calculate_clusters_no_eligible _ feeds h
  rw [hcalc]
  refine ⟨rfl, ?_⟩
  intro data n
  simp [is_in_cluster, hasKey]

/-- Witness for C3 (amended) at a state whose lookback `2` exceeds the single
supplied feed's one bar of history, with a stale `"A"` membership present. -/
theorem zero_eligible_clears_witness :
    eligibleSources
        (⟨[("A", ⟨⟨"A", [101], [100]⟩, 1, "A"⟩)], [], [], [], [], [], 0, 2,
          33, 33, 34⟩ : VolatilityStageClusters).length
        [⟨"B", [105], [100]⟩] = []
    ∧ ((VolatilityStageClusters.calculate
          ⟨[("A", ⟨⟨"A", [101], [100]⟩, 1, "A"⟩)], [], [], [], [], [], 0, 2,
            33, 33, 34⟩ [⟨"B", [105], [100]⟩]).2 = none
      ∧ ∀ (data : Feed) (n : ℤ),
          is_in_cluster
            (VolatilityStageClusters.calculate
              ⟨[("A", ⟨⟨"A", [101], [100]⟩, 1, "A"⟩)], [], [], [], [], [], 0, 2,
                33, 33, 34⟩ [⟨"B", [105], [100]⟩]).1 data n = false) :=
  ⟨by norm_num [eligibleSources, Feed.len],
    zero_eligible_clears _ _ (by norm_num [eligibleSources, Feed.len])⟩

/-- Overwriting an existing key in an insertion-ordered dict does not change
its key set. -/
theorem any_key_map_overwrite (d : List (String × SourceVol)) (k : String)
    (v : SourceVol) (q : String) :
    ((d.map fun p => if p.1 == k then (k, v) else p).any fun p => p.1 == q)
      = d.any fun p => p.1 == q := by
  induction d with
  | nil => rfl
  | cons hd tl ih =>
      simp only [List.map_cons, List.any_cons, ih]
      by_cases h : hd.1 == k
      · have hk : hd.1 = k := by simpa [beq_iff_eq] using h
        simp [h, hk]
      · simp [h]

/-- Key membership after a Python dict assignment `d[k] = v`. -/
theorem hasKey_dictInsert (d : List (String × SourceVol)) (k : String)
    (v : SourceVol) (nm : String) :
    hasKey (dictInsert d k v) nm = true ↔ (hasKey d nm = true ∨ k = nm) := by
  unfold dictInsert
  by_cases h : (d.any fun p => p.1 == k) = true
  · rw [if_pos h]
    unfold hasKey
    rw [any_key_map_overwrite]
    constructor
    · exact Or.inl
    · rintro (hm | hke)
      · exact hm
      · subst hke
        exact h
  · rw [if_neg h]
    unfold hasKey
    rw [List.any_append]
    simp [beq_iff_eq]

/-- Characterisation of the assignment loop: each cluster's `*_full` list
receives exactly the rank-filtered entries in order, each cluster dict's key
set grows by exactly the names of those entries, and `one_lot` is untouched. -/
theorem assignAll_spec (limit1 limit2 : ℚ) (pairs : List (ℕ × SourceVol)) :
    ∀ s : VolatilityStageClusters,
      (assignAll s limit1 limit2 pairs).cluster_one_full
          = s.cluster_one_full ++ rankedOne limit1 pairs
      ∧ (assignAll s limit1 limit2 pairs).cluster_two_full
          = s.cluster_two_full ++ rankedTwo limit1 limit2 pairs
      ∧ (assignAll s limit1 limit2 pairs).cluster_three_full
          = s.cluster_three_full ++ rankedThree limit1 limit2 pairs
      ∧ (∀ nm : String,
          hasKey (assignAll s limit1 limit2 pairs).cluster_one nm = true
          ↔ (hasKey s.cluster_one nm = true
            ∨ nm ∈ (rankedOne limit1 pairs).map SourceVol.name))
      ∧ (∀ nm : String,
          hasKey (assignAll s limit1 limit2 pairs).cluster_two nm = true
          ↔ (hasKey s.cluster_two nm = true
            ∨ nm ∈ (rankedTwo limit1 limit2 pairs).map SourceVol.name))
      ∧ (∀ nm : String,
          hasKey (assignAll s limit1 limit2 pairs).cluster_three nm = true
          ↔ (hasKey s.cluster_three nm = true
            ∨ nm ∈ (rankedThree limit1 limit2 pairs).map SourceVol.name))
      ∧ (assignAll s limit1 limit2 pairs).one_lot = s.one_lot := by
  induction pairs with
  | nil =>
      intro s
      simp [assignAll, rankedOne, rankedTwo, rankedThree]
  | cons hd rest ih =>
      obtain ⟨i, src⟩ := hd
      intro s
      have hstep : assignAll s limit1 limit2 ((i, src) :: rest)
          = assignAll (assignOne s limit1 limit2 i src) limit1 limit2 rest := rfl
      rw [hstep]
      obtain ⟨ih1, ih2, ih3, ihk1, ihk2, ihk3, ihol⟩ :=
        ih (assignOne s limit1 limit2 i src)
      by_cases h1 : ((i + 1 : ℕ) : ℚ) ≤ limit1
      · have h1c : (i : ℚ) + 1 ≤ limit1 := by push_cast at h1; exact h1
        have h1c' : ¬ limit1 < (i : ℚ) + 1 := not_lt.mpr h1c
        have hone : assignOne s limit1 limit2 i src
            = { s with cluster_one_full := s.cluster_one_full ++ [src]
                       cluster_one := dictInsert s.cluster_one src.name src } := by
          simp only [assignOne]
          rw [if_pos h1]
        have hr1 : rankedOne limit1 ((i, src) :: rest)
            = src :: rankedOne limit1 rest := by
          unfold rankedOne
          rw [List.filter_cons]
          simp [h1c]
        have hr2 : rankedTwo limit1 limit2 ((i, src) :: rest)
            = rankedTwo limit1 limit2 rest := by
          unfold rankedTwo
          rw [List.filter_cons]
          simp [h1c']
        have hr3 : rankedThree limit1 limit2 ((i, src) :: rest)
            = rankedThree limit1 limit2 rest := by
          unfold rankedThree
          rw [List.filter_cons]
          simp [h1c']
        refine ⟨?_, ?_, ?_, ?_, ?_, ?_, ?_⟩
        · rw [ih1, hone, hr1]
          simp
        · rw [ih2, hone, hr2]
        · rw [ih3, hone, hr3]
        · intro nm
          rw [ihk1 nm, hone, hr1]
          simp only [hasKey_dictInsert, List.map_cons, List.mem_cons]
          constructor
          · rintro ((hk | he) | hmem)
            · exact Or.inl hk
            · exact Or.inr (Or.inl he.symm)
            · exact Or.inr (Or.inr hmem)
          · rintro (hk | (he | hmem))
            · exact Or.inl (Or.inl hk)
            · exact Or.inl (Or.inr he.symm)
            · exact Or.inr hmem
        · intro nm
          rw [ihk2 nm, hone, hr2]
        · intro nm
          rw [ihk3 nm, hone, hr3]
        · rw [ihol, hone]
      · have h1cn : ¬ ((i : ℚ) + 1 ≤ limit1) := by push_cast at h1; exact h1
        have h1c' : limit1 < (i : ℚ) + 1 := not_le.mp h1cn
        by_cases h2 : ((i + 1 : ℕ) : ℚ) ≤ limit2
        · have h2c : (i : ℚ) + 1 ≤ limit2 := by push_cast at h2; exact h2
          have h2c' : ¬ limit2 < (i : ℚ) + 1 := not_lt.mpr h2c
          have hone : assignOne s limit1 limit2 i src
              = { s with cluster_two_full := s.cluster_two_full ++ [src]
                         cluster_two := dictInsert s.cluster_two src.name src } := by
            simp only [assignOne]
            rw [if_neg h1, if_pos h2]
          have hr1 : rankedOne limit1 ((i, src) :: rest)
              = rankedOne limit1 rest := by
            unfold rankedOne
            rw [List.filter_cons]
            simp [h1cn]
          have hr2 : rankedTwo limit1 limit2 ((i, src) :: rest)
              = src :: rankedTwo limit1 limit2 rest := by
            unfold rankedTwo
            rw [List.filter_cons]
            simp [h1c', h2c]
          have hr3 : rankedThree limit1 limit2 ((i, src) :: rest)
              = rankedThree limit1 limit2 rest := by
            unfold rankedThree
            rw [List.filter_cons]
            simp [h2c']
          refine ⟨?_, ?_, ?_, ?_, ?_, ?_, ?_⟩
          · rw [ih1, hone, hr1]
          · rw [ih2, hone, hr2]
            simp
          · rw [ih3, hone, hr3]
          · intro nm
            rw [ihk1 nm, hone, hr1]
          · intro nm
            rw [ihk2 nm, hone, hr2]
            simp only [hasKey_dictInsert, List.map_cons, List.mem_cons]
            constructor
            · rintro ((hk | he) | hmem)
              · exact Or.inl hk
              · exact Or.inr (Or.inl he.symm)
              · exact Or.inr (Or.inr hmem)
            · rintro (hk | (he | hmem))
              · exact Or.inl (Or.inl hk)
              · exact Or.inl (Or.inr he.symm)
              · exact Or.inr hmem
          · intro nm
            rw [ihk3 nm, hone, hr3]
          · rw [ihol, hone]
        · have h2cn : ¬ ((i : ℚ) + 1 ≤ limit2) := by push_cast at h2; exact h2
          have h2c' : limit2 < (i : ℚ) + 1 := not_le.mp h2cn
          have hone : assignOne s limit1 limit2 i src
              = { s with cluster_three_full := s.cluster_three_full ++ [src]
                         cluster_three := dictInsert s.cluster_three src.name src } := by
            simp only [assignOne]
            rw [if_neg h1, if_neg h2]
          have hr1 : rankedOne limit1 ((i, src) :: rest)
              = rankedOne limit1 rest := by
            unfold rankedOne
            rw [List.filter_cons]
            simp [h1cn]
          have hr2 : rankedTwo limit1 limit2 ((i, src) :: rest)
              = rankedTwo limit1 limit2 rest := by
            unfold rankedTwo
            rw [List.filter_cons]
            simp [h2cn]
          have hr3 : rankedThree limit1 limit2 ((i, src) :: rest)
              = src :: rankedThree limit1 limit2 rest := by
            unfold rankedThree
            rw [List.filter_cons]
            simp [h1c', h2c']
          refine ⟨?_, ?_, ?_, ?_, ?_, ?_, ?_⟩
          · rw [ih1, hone, hr1]
          · rw [ih2, hone, hr2]
          · rw [ih3, hone, hr3]
            simp
          · intro nm
            rw [ihk1 nm, hone, hr1]
          · intro nm
            rw [ihk2 nm, hone, hr2]
          · intro nm
            rw [ihk3 nm, hone, hr3]
            simp only [hasKey_dictInsert, List.map_cons, List.mem_cons]
            constructor
            · rintro ((hk | he) | hmem)
              · exact Or.inl hk
              · exact Or.inr (Or.inl he.symm)
              · exact Or.inr (Or.inr hmem)
            · rintro (hk | (he | hmem))
              · exact Or.inl (Or.inl hk)
              · exact Or.inl (Or.inr he.symm)
              · exact Or.inr hmem
          · rw [ihol, hone]

/-- With at least two eligible sources, `calculate` clears the state, sets
`one_lot` and runs the assignment loop over the enumerated stable-sorted
source list, raising nothing. -/
theorem calculate_two_or_more (s : VolatilityStageClusters) (feeds : List Feed)
    (h2 : 2 ≤ (eligibleSources s.length feeds).length) :
    VolatilityStageClusters.calculate s feeds
      = (assignAll
          { s with cluster_one := [], cluster_two := [], cluster_three := []
                   cluster_one_full := [], cluster_two_full := []
                   cluster_three_full := []
                   one_lot := (((List.mergeSort (eligibleSources s.length feeds)
                      fun a b => decide (a.volatility ≤ b.volatility)).length : ℚ) / 100) }
          (s.cluster_one_percent
            * (((List.mergeSort (eligibleSources s.length feeds)
                fun a b => decide (a.volatility ≤ b.volatility)).length : ℚ) / 100))
          ((s.cluster_one_percent + s.cluster_two_percent)
            * (((List.mergeSort (eligibleSources s.length feeds)
                fun a b => decide (a.volatility ≤ b.volatility)).length : ℚ) / 100))
          (List.mergeSort (eligibleSources s.length feeds)
              fun a b => decide (a.volatility ≤ b.volatility)).enum,
        none) := by
  have hfe : feeds.isEmpty = false := by
    cases feeds with
    | nil => simp [eligibleSources] at h2
    | cons a l => rfl
  have hle : ¬ ((eligibleSources s.length feeds).length ≤ 1) := by omega
  simp only [VolatilityStageClusters.calculate, calculate_clusters, hfe,
    Bool.false_eq_true, if_false]
  rw [if_neg hle]

/-- **C4.** With at least two eligible instruments, cluster recomputation
stable-sorts them ascending by volatility, sets `one_lot = count / 100`,
`limit1 = p1 * one_lot`, `limit2 = (p1 + p2) * one_lot`, and assigns the
instrument of 1-based rank `r` to Cluster1 iff `r ≤ limit1`, to Cluster2 iff
`limit1 < r ≤ limit2`, and to Cluster3 otherwise; every ranked instrument
lands in exactly one cluster (the three rank filters partition the sorted
sequence), the sorted sequence is ascending in volatility and is a
permutation of the eligible sources, and the call raises nothing. -/
theorem clusters_rank_rule (s : VolatilityStageClusters) (feeds : List Feed)
    (h2 : 2 ≤ (eligibleSources s.length feeds).length) :
    (VolatilityStageClusters.calculate s feeds).2 = none
    ∧ (VolatilityStageClusters.calculate s feeds).1.one_lot
        = ((eligibleSources s.length feeds).length : ℚ) / 100
    ∧ (VolatilityStageClusters.calculate s feeds).1.cluster_one_full
        = rankedOne
            (s.cluster_one_percent * (((eligibleSources s.length feeds).length : ℚ) / 100))
            (List.mergeSort (eligibleSources s.length feeds)
              fun a b => decide (a.volatility ≤ b.volatility)).enum
    ∧ (VolatilityStageClusters.calculate s feeds).1.cluster_two_full
        = rankedTwo
            (s.cluster_one_percent * (((eligibleSources s.length feeds).length : ℚ) / 100))
            ((s.cluster_one_percent + s.cluster_two_percent)
              * (((eligibleSources s.length feeds).length : ℚ) / 100))
            (List.mergeSort (eligibleSources s.length feeds)
              fun a b => decide (a.volatility ≤ b.volatility)).enum
    ∧ (VolatilityStageClusters.calculate s feeds).1.cluster_three_full
        = rankedThree
            (s.cluster_one_percent * (((eligibleSources s.length feeds).length : ℚ) / 100))
            ((s.cluster_one_percent + s.cluster_two_percent)
              * (((eligibleSources s.length feeds).length : ℚ) / 100))
            (List.mergeSort (eligibleSources s.length feeds)
              fun a b => decide (a.volatility ≤ b.volatility)).enum
    ∧ (∀ nm : String,
        hasKey (VolatilityStageClusters.calculate s feeds).1.cluster_one nm = true
        ↔ nm ∈ (rankedOne
            (s.cluster_one_percent * (((eligibleSources s.length feeds).length : ℚ) / 100))
            (List.mergeSort (eligibleSources s.length feeds)
              fun a b => decide (a.volatility ≤ b.volatility)).enum).map SourceVol.name)
    ∧ (∀ nm : String,
        hasKey (VolatilityStageClusters.calculate s feeds).1.cluster_two nm = true
        ↔ nm ∈ (rankedTwo
            (s.cluster_one_percent * (((eligibleSources s.length feeds).length : ℚ) / 100))
            ((s.cluster_one_percent + s.cluster_two_percent)
              * (((eligibleSources s.length feeds).length : ℚ) / 100))
            (List.mergeSort (eligibleSources s.length feeds)
              fun a b => decide (a.volatility ≤ b.volatility)).enum).map SourceVol.name)
    ∧ (∀ nm : String,
        hasKey (VolatilityStageClusters.calculate s feeds).1.cluster_three nm = true
        ↔ nm ∈ (rankedThree
            (s.cluster_one_percent * (((eligibleSources s.length feeds).length : ℚ) / 100))
            ((s.cluster_one_percent + s.cluster_two_percent)
              * (((eligibleSources s.length feeds).length : ℚ) / 100))
            (List.mergeSort (eligibleSources s.length feeds)
              fun a b => decide (a.volatility ≤ b.volatility)).enum).map SourceVol.name)
    ∧ (List.mergeSort (eligibleSources s.length feeds)
          fun a b => decide (a.volatility ≤ b.volatility)).Pairwise
        (fun a b => a.volatility ≤ b.volatility)
    ∧ (List.mergeSort (eligibleSources s.length feeds)
          fun a b => decide (a.volatility ≤ b.volatility)).Perm
        (eligibleSources s.length feeds) := by
  have hsl : (List.mergeSort (eligibleSources s.length feeds)
      fun a b => decide (a.volatility ≤ b.volatility)).length
      = (eligibleSources s.length feeds).length :=
    (List.mergeSort_perm (eligibleSources s.length feeds) _).length_eq
  have hcalc := calculate_two_or_more s feeds h2
  rw [hsl] at hcalc
  obtain ⟨a1, a2, a3, a4, a5, a6, a7⟩ :=
    assignAll_spec
      (s.cluster_one_percent * (((eligibleSources s.length feeds).length : ℚ) / 100))
      ((s.cluster_one_percent + s.cluster_two_percent)
        * (((eligibleSources s.length feeds).length : ℚ) / 100))
      (List.mergeSort (eligibleSources s.length feeds)
        fun a b => decide (a.volatility ≤ b.volatility)).enum
      { s with cluster_one := [], cluster_two := [], cluster_three := []
               cluster_one_full := [], cluster_two_full := []
               cluster_three_full := []
               one_lot := (((eligibleSources s.length feeds).length : ℚ) / 100) }
  refine ⟨by rw [hcalc], ?_, ?_, ?_, ?_, ?_, ?_, ?_, ?_, ?_⟩
  · rw [hcalc]
    exact a7
  · rw [hcalc]
    simpa using a1
  · rw [hcalc]
    simpa using a2
  · rw [hcalc]
    simpa using a3
  · intro nm
    rw [hcalc]
    simpa [hasKey] using a4 nm
  · intro nm
    rw [hcalc]
    simpa [hasKey] using a5 nm
  · intro nm
    rw [hcalc]
    simpa [hasKey] using a6 nm
  · refine List.Pairwise.imp ?_ (List.sorted_mergeSort ?_ ?_ (eligibleSources s.length feeds))
    · intro a b hab
      simpa using hab
    · intro a b c hab hbc
      simp only [decide_eq_true_eq] at hab hbc ⊢
      exact le_trans hab hbc
    · intro a b
      simp only [Bool.or_eq_true, decide_eq_true_eq]
      exact le_total _ _
  · exact List.mergeSort_perm (eligibleSources s.length feeds) _

/-- Witness for C4 at the spec's ten-instrument example with the default
`33/33/34` split: `one_lot = 0.1`, `limit1 = 3.3`, `limit2 = 6.6`; ranks 1-3
(`D1 D2 D3`) land in cluster one, ranks 4-6 in cluster two, ranks 7-10 in
cluster three. -/
theorem clusters_rank_rule_witness :
    2 ≤ (eligibleSources exampleState.length exampleFeeds).length
    ∧ (
    (VolatilityStageClusters.calculate exampleState exampleFeeds).2 = none
    ∧ (VolatilityStageClusters.calculate exampleState exampleFeeds).1.one_lot
        = ((eligibleSources exampleState.length exampleFeeds).length : ℚ) / 100
    ∧ (VolatilityStageClusters.calculate exampleState exampleFeeds).1.cluster_one_full
        = rankedOne
            (exampleState.cluster_one_percent * (((eligibleSources exampleState.length exampleFeeds).length : ℚ) / 100))
            (List.mergeSort (eligibleSources exampleState.length exampleFeeds)
              fun a b => decide (a.volatility ≤ b.volatility)).enum
    ∧ (VolatilityStageClusters.calculate exampleState exampleFeeds).1.cluster_two_full
        = rankedTwo
            (exampleState.cluster_one_percent * (((eligibleSources exampleState.length exampleFeeds).length : ℚ) / 100))
            ((exampleState.cluster_one_percent + exampleState.cluster_two_percent)
              * (((eligibleSources exampleState.length exampleFeeds).length : ℚ) / 100))
            (List.mergeSort (eligibleSources exampleState.length exampleFeeds)
              fun a b => decide (a.volatility ≤ b.volatility)).enum
    ∧ (VolatilityStageClusters.calculate exampleState exampleFeeds).1.cluster_three_full
        = rankedThree
            (exampleState.cluster_one_percent * (((eligibleSources exampleState.length exampleFeeds).length : ℚ) / 100))
            ((exampleState.cluster_one_percent + exampleState.cluster_two_percent)
              * (((eligibleSources exampleState.length exampleFeeds).length : ℚ) / 100))
            (List.mergeSort (eligibleSources exampleState.length exampleFeeds)
              fun a b => decide (a.volatility ≤ b.volatility)).enum
    ∧ (∀ nm : String,
        hasKey (VolatilityStageClusters.calculate exampleState exampleFeeds).1.cluster_one nm = true
        ↔ nm ∈ (rankedOne
            (exampleState.cluster_one_percent * (((eligibleSources exampleState.length exampleFeeds).length : ℚ) / 100))
            (List.mergeSort (eligibleSources exampleState.length exampleFeeds)
              fun a b => decide (a.volatility ≤ b.volatility)).enum).map SourceVol.name)
    ∧ (∀ nm : String,
        hasKey (VolatilityStageClusters.calculate exampleState exampleFeeds).1.cluster_two nm = true
        ↔ nm ∈ (rankedTwo
            (exampleState.cluster_one_percent * (((eligibleSources exampleState.length exampleFeeds).length : ℚ) / 100))
            ((exampleState.cluster_one_percent + exampleState.cluster_two_percent)
              * (((eligibleSources exampleState.length exampleFeeds).length : ℚ) / 100))
            (List.mergeSort (eligibleSources exampleState.length exampleFeeds)
              fun a b => decide (a.volatility ≤ b.volatility)).enum).map SourceVol.name)
    ∧ (∀ nm : String,
        hasKey (VolatilityStageClusters.calculate exampleState exampleFeeds).1.cluster_three nm = true
        ↔ nm ∈ (rankedThree
            (exampleState.cluster_one_percent * (((eligibleSources exampleState.length exampleFeeds).length : ℚ) / 100))
            ((exampleState.cluster_one_percent + exampleState.cluster_two_percent)
              * (((eligibleSources exampleState.length exampleFeeds).length : ℚ) / 100))
            (List.mergeSort (eligibleSources exampleState.length exampleFeeds)
              fun a b => decide (a.volatility ≤ b.volatility)).enum).map SourceVol.name)
    ∧ (List.mergeSort (eligibleSources exampleState.length exampleFeeds)
          fun a b => decide (a.volatility ≤ b.volatility)).Pairwise
        (fun a b => a.volatility ≤ b.volatility)
    ∧ (List.mergeSort (eligibleSources exampleState.length exampleFeeds)
          fun a b => decide (a.volatility ≤ b.volatility)).Perm
        (eligibleSources exampleState.length exampleFeeds))
    ∧ ((VolatilityStageClusters.calculate exampleState exampleFeeds).1.cluster_one_full.map
          SourceVol.name = ["D1", "D2", "D3"]
      ∧ (VolatilityStageClusters.calculate exampleState exampleFeeds).1.cluster_two_full.map
          SourceVol.name = ["D4", "D5", "D6"]
      ∧ (VolatilityStageClusters.calculate exampleState exampleFeeds).1.cluster_three_full.map
          SourceVol.name = ["D7", "D8", "D9", "D10"]) :=
  ⟨by norm_num [eligibleSources, exampleState, exampleFeeds, Feed.len],
   clusters_rank_rule exampleState exampleFeeds
     (by norm_num [eligibleSources, exampleState, exampleFeeds, Feed.len]),
   by
     refine ⟨?_, ?_, ?_⟩ <;>
       norm_num [VolatilityStageClusters.calculate, calculate_clusters,
         eligibleSources, Feed.len, volatility_calculate, listMax, listMin,
         exampleState, exampleFeeds, List.mergeSort, List.enum, List.enumFrom,
         assignAll, assignOne, dictInsert]⟩

end RoboBuilding
